import Mathlib

/-!
Verification development for an HTTP request-dispatch pipeline (an Express
application: `server.js` and `hubs/hubs-router.js`).

The application code (guards, terminal handlers, the registered
error-handling middleware) is embedded from the source files.  The dispatch
engine itself (the framework's chain walker, error track, built-in fallback
error handler, path matcher and response sink) is not part of the
repository's own sources, so those pieces are modelled from the spec, as
marked on each definition.
-/

namespace HubsApp

/-- Hub record held by the persistence collaborator.  Identifiers are kept
as text, matching the path-parameter representation (no type coercion). -/
structure Hub where
  id : String
  name : String
  deriving DecidableEq, Repr

/-- Decoded request body / stored message record: a mapping from field name
to value, modelled as an association list in key order. -/
abbrev Mapping : Type := List (String × String)

/-- Failure value carried by a fail signal (`next(error)`): the router
always passes an object with a `message` field. -/
structure Failure where
  message : String
  deriving DecidableEq, Repr

/-- Collaborator-level error, distinct from "not found". -/
inductive CollabErr where
  | fault (detail : String)
  deriving DecidableEq, Repr

/-- Response body payloads the application produces. -/
inductive Body where
  | hubs (l : List Hub)
  | hubOpt (h : Option Hub)
  | messageRec (m : Mapping)
  | messageRecs (l : List Mapping)
  | msg (text : String)
  | err (v : Failure)
  | html (text : String)
  deriving DecidableEq, Repr

/-- Response: one status code plus one JSON body. -/
structure Response where
  status : Nat
  body : Body
  deriving DecidableEq, Repr

/-- Request context: path, extracted `:id` parameter, query, decoded body,
and the attachment slots middleware writes (`req.hub` from `validateId`,
`req.name` from `addName`).  `seconds` feeds `gateKeeper`. -/
structure Ctx where
  path : List String
  id : String
  query : Mapping
  body : Option Mapping
  hub : Option Hub
  name : Option String
  seconds : Nat
  deriving DecidableEq, Repr

/-- Continuation outcome of one handler invocation: `next()` (advance),
`next(error)` (fail), or writing the response. -/
inductive Outcome where
  | advance
  | fail (v : Failure)
  | write (r : Response)
  deriving DecidableEq, Repr

/-- Whether an outcome is a fail signal. -/
def Outcome.isFail : Outcome → Bool
  | Outcome.fail _ => true
  | _ => false

/-- Whether an outcome is a response write. -/
def Outcome.isWrite : Outcome → Bool
  | Outcome.write _ => true
  | _ => false

/-- Handler entry of the flattened sequence: Normal (context to context and
outcome) or ErrorCapable (failure value and context to context and outcome),
the latter carrying its path scope. -/
inductive Handler where
  | normal (f : Ctx → Ctx × Outcome)
  | errorCapable (scope : List String) (f : Failure → Ctx → Ctx × Outcome)

/-- Whether a handler entry is a Normal handler. -/
def Handler.isNormal : Handler → Bool
  | Handler.normal _ => true
  | Handler.errorCapable _ _ => false

/-- Modelled from the spec: ErrorHandler eligibility — the handler's scope
is a prefix of (or equal to) the request path, segment for segment. -/
def scopeMatches : List String → List String → Bool
  | [], _ => true
  | _ :: _, [] => false
  | a :: as, b :: bs => a == b && scopeMatches as bs

/-- Modelled from the spec: the built-in fallback error handler's response —
a generic internal-failure (500) response carrying the failure value. -/
def fallback (v : Failure) : Response :=
  ⟨500, Body.err v⟩

/-- Result of dispatching a request over a flattened sequence: either a
response was written, or the chain was exhausted on the normal track with no
write (the deadlock condition of the spec). -/
inductive DispatchResult where
  | response (r : Response)
  | hang
  deriving DecidableEq, Repr

/-- Current track of the dispatcher state machine. -/
inductive Mode where
  | norm
  | err (v : Failure)
  deriving Repr

/-- Modelled from the spec: the Dispatcher control-flow engine (the part of
the framework not present in the repository's sources).  It walks the
flattened handler sequence: on the normal track it runs Normal handlers and
skips ErrorCapable ones; a fail signal switches to the error track, which
scans forward for the next eligible ErrorCapable handler; an eligible error
handler may write, re-fail (scanning continues), or advance (normal dispatch
resumes just after it); exhausting the error track invokes the built-in
fallback. -/
def dispatch : List Handler → Mode → Ctx → DispatchResult
  | [], Mode.norm, _ => DispatchResult.hang
  | [], Mode.err v, _ => DispatchResult.response (fallback v)
  | Handler.normal f :: rest, Mode.norm, ctx =>
    match f ctx with
    | (ctx2, Outcome.advance) => dispatch rest Mode.norm ctx2
    | (ctx2, Outcome.fail v) => dispatch rest (Mode.err v) ctx2
    | (_, Outcome.write r) => DispatchResult.response r
  | Handler.errorCapable _ _ :: rest, Mode.norm, ctx => dispatch rest Mode.norm ctx
  | Handler.normal _ :: rest, Mode.err v, ctx => dispatch rest (Mode.err v) ctx
  | Handler.errorCapable scope f :: rest, Mode.err v, ctx =>
    if scopeMatches scope ctx.path then
      match f v ctx with
      | (ctx2, Outcome.advance) => dispatch rest Mode.norm ctx2
      | (ctx2, Outcome.fail v2) => dispatch rest (Mode.err v2) ctx2
      | (_, Outcome.write r) => DispatchResult.response r
    else dispatch rest (Mode.err v) ctx

/-- Persistence collaborator for hubs (`hubs-model.js` interface, as consumed
by `hubs-router.js`): each operation either succeeds or raises a
collaborator-level error.  `findById` may also succeed with no record. -/
structure HubsModel where
  find : Mapping → Except CollabErr (List Hub)
  findById : String → Except CollabErr (Option Hub)
  add : Option Mapping → Except CollabErr Hub
  update : String → Option Mapping → Except CollabErr (Option Hub)
  remove : String → Except CollabErr Nat
  findHubMessages : String → Except CollabErr (List Mapping)

/-- Persistence collaborator for messages (`messages-model.js` interface):
`add` stores a message record and returns the stored record. -/
structure MessagesModel where
  add : Mapping → Except CollabErr Mapping

/-- `validateId` middleware (hubs-router.js, lines 169-185): looks the hub up
by the `:id` path parameter; on success attaches it to the request context
and advances; on absence fails with "the id you sent was invalid"; on a
lookup error fails with "some major jam...". -/
def validateId (M : HubsModel) (ctx : Ctx) : Ctx × Outcome :=
  match M.findById ctx.id with
  | Except.ok (some hub) => ({ ctx with hub := some hub }, Outcome.advance)
  | Except.ok none => (ctx, Outcome.fail ⟨"the id you sent was invalid"⟩)
  | Except.error _ => (ctx, Outcome.fail ⟨"some major jam..."⟩)

/-- `requireBody` middleware (hubs-router.js, lines 190-196): advances when
the decoded body exists and has at least one key, else fails. -/
def requireBody (ctx : Ctx) : Ctx × Outcome :=
  match ctx.body with
  | some m =>
    if m.length > 0 then
      (ctx, Outcome.advance)
    else
      (ctx, Outcome.fail ⟨"You need to supply a body with this request"⟩)
  | none => (ctx, Outcome.fail ⟨"You need to supply a body with this request"⟩)

/-- Terminal handler of `GET /` (hubs-router.js, lines 17-28): `Hubs.find`
then 200 with the list; a caught collaborator error yields a direct 500
response. -/
def getHubsList (M : HubsModel) (ctx : Ctx) : Ctx × Outcome :=
  match M.find ctx.query with
  | Except.ok hubs => (ctx, Outcome.write ⟨200, Body.hubs hubs⟩)
  | Except.error _ => (ctx, Outcome.write ⟨500, Body.msg "Error retrieving the hubs"⟩)

/-- Terminal handler of `GET /:id` (hubs-router.js, lines 47-51): responds
200 with the hub attached to the request by `validateId`. -/
def getHubById (ctx : Ctx) : Ctx × Outcome :=
  (ctx, Outcome.write ⟨200, Body.hubOpt ctx.hub⟩)

/-- Success status code of the ordinary create route `POST /`
(hubs-router.js, line 68). -/
def postHubSuccessCode : Nat := 201

/-- Terminal handler of `POST /` (hubs-router.js, lines 65-76): `Hubs.add`
with the request body, then 201 with the stored hub; a caught collaborator
error yields a direct 500 response. -/
def postHub (M : HubsModel) (ctx : Ctx) : Ctx × Outcome :=
  match M.add ctx.body with
  | Except.ok hub => (ctx, Outcome.write ⟨postHubSuccessCode, Body.hubOpt (some hub)⟩)
  | Except.error _ => (ctx, Outcome.write ⟨500, Body.msg "Error adding the hub"⟩)

/-- Terminal handler of `DELETE /:id` (hubs-router.js, lines 81-96):
`Hubs.remove`, then 200 when the removed count is positive, 404 when it is
zero; a caught collaborator error yields a direct 500 response. -/
def deleteHub (M : HubsModel) (ctx : Ctx) : Ctx × Outcome :=
  match M.remove ctx.id with
  | Except.ok count =>
    if count > 0 then
      (ctx, Outcome.write ⟨200, Body.msg "The hub has been nuked"⟩)
    else
      (ctx, Outcome.write ⟨404, Body.msg "The hub could not be found"⟩)
  | Except.error _ => (ctx, Outcome.write ⟨500, Body.msg "Error removing the hub"⟩)

/-- Terminal handler of `PUT /:id` (hubs-router.js, lines 102-117):
`Hubs.update`, then 200 with the updated hub or 404 when absent; a caught
collaborator error yields a direct 500 response. -/
def putHub (M : HubsModel) (ctx : Ctx) : Ctx × Outcome :=
  match M.update ctx.id ctx.body with
  | Except.ok (some hub) => (ctx, Outcome.write ⟨200, Body.hubOpt (some hub)⟩)
  | Except.ok none => (ctx, Outcome.write ⟨404, Body.msg "The hub could not be found"⟩)
  | Except.error _ => (ctx, Outcome.write ⟨500, Body.msg "Error updating the hub"⟩)

/-- Terminal handler of `GET /:id/messages` (hubs-router.js, lines 121-133):
`Hubs.findHubMessages`, then 200 with the sequence; a caught collaborator
error yields a direct 500 response. -/
def getHubMessages (M : HubsModel) (ctx : Ctx) : Ctx × Outcome :=
  match M.findHubMessages ctx.id with
  | Except.ok msgs => (ctx, Outcome.write ⟨200, Body.messageRecs msgs⟩)
  | Except.error _ =>
    (ctx, Outcome.write ⟨500, Body.msg "Error getting the messages for the hub"⟩)

/-- JavaScript object update semantics used by the spread expression
`\x7b ...req.body, hub_id: req.params.id \x7d`: if the key is present its
value is replaced in place, otherwise the pair is appended. -/
def setKey (m : Mapping) (k v : String) : Mapping :=
  if m.any (fun p => p.1 == k) then
    m.map (fun p => if p.1 == k then (k, v) else p)
  else
    m ++ [(k, v)]

/-- Value of a key in a mapping (first occurrence). -/
def lookupKey (m : Mapping) (k : String) : Option String :=
  (m.find? (fun p => p.1 == k)).map (fun p => p.2)

/-- Record passed to `Messages.add` by `POST /:id/messages`
(hubs-router.js, line 145): the request body spread, with `hub_id` set to
the `:id` path parameter. -/
def messageInfo (ctx : Ctx) : Mapping :=
  setKey (ctx.body.getD []) "hub_id" ctx.id

/-- Success status code of the nested create route `POST /:id/messages`
(hubs-router.js, line 149) — a non-standard code specific to this route. -/
def postHubMessageSuccessCode : Nat := 210

/-- Terminal handler of `POST /:id/messages` (hubs-router.js, lines
144-157): `Messages.add` with `messageInfo`, then the route's success code
with the stored record; a caught collaborator error yields a direct 500
response. -/
def postHubMessage (Msgs : MessagesModel) (ctx : Ctx) : Ctx × Outcome :=
  match Msgs.add (messageInfo ctx) with
  | Except.ok m => (ctx, Outcome.write ⟨postHubMessageSuccessCode, Body.messageRec m⟩)
  | Except.error _ =>
    (ctx, Outcome.write ⟨500, Body.msg "Error getting the messages for the hub"⟩)

/-- `methodLogger` (server.js, lines 264-269): logs and advances. -/
def methodLogger (ctx : Ctx) : Ctx × Outcome :=
  (ctx, Outcome.advance)

/-- `express.json()` (server.js, line 56): body decoding happens before the
dispatch model starts (the context already carries the decoded mapping), so
the entry itself advances. -/
def jsonParserMW (ctx : Ctx) : Ctx × Outcome :=
  (ctx, Outcome.advance)

/-- The hubs router's own logging middleware (hubs-router.js, lines 11-14):
logs and advances. -/
def hubsLogMW (ctx : Ctx) : Ctx × Outcome :=
  (ctx, Outcome.advance)

/-- `helmet()` (server.js, line 62): adds security headers (outside this
model) and advances. -/
def helmetMW (ctx : Ctx) : Ctx × Outcome :=
  (ctx, Outcome.advance)

/-- `addName` (server.js, lines 278-283): attaches `name = "sk"` to the
request and advances. -/
def addName (ctx : Ctx) : Ctx × Outcome :=
  ({ ctx with name := some "sk" }, Outcome.advance)

/-- `morgan('dev')` (server.js, line 79): logs and advances. -/
def morganMW (ctx : Ctx) : Ctx × Outcome :=
  (ctx, Outcome.advance)

/-- `gateKeeper` (server.js, lines 298-309): writes 403 when the current
second is a multiple of 3, else advances. -/
def gateKeeper (ctx : Ctx) : Ctx × Outcome :=
  if ctx.seconds % 3 == 0 then
    (ctx, Outcome.write ⟨403, Body.msg "I hate 3..."⟩)
  else
    (ctx, Outcome.advance)

/-- The one registered error-handling middleware (server.js, lines 229-233):
it writes nothing and re-signals the failure value unchanged via
`next(error)`. -/
def errorMW (v : Failure) (ctx : Ctx) : Ctx × Outcome :=
  (ctx, Outcome.fail v)

/-- Global middleware registered before the mounted hubs router
(server.js, lines 49 and 56). -/
def preMW : List Handler :=
  [Handler.normal methodLogger, Handler.normal jsonParserMW]

/-- Global middleware registered after the mounted hubs router, ending in
the error-handling middleware (server.js, lines 62-233).  Its scope is the
root, so it is eligible for every request path. -/
def postMW : List Handler :=
  [Handler.normal helmetMW, Handler.normal addName, Handler.normal morganMW,
   Handler.normal gateKeeper, Handler.errorCapable [] errorMW]

/-- Flattened sequence for `GET /api/hubs` requests. -/
def getHubsChain (M : HubsModel) : List Handler :=
  preMW ++ [Handler.normal hubsLogMW, Handler.normal (getHubsList M)] ++ postMW

/-- Flattened sequence for `GET /api/hubs/:id` requests. -/
def getHubByIdChain (M : HubsModel) : List Handler :=
  preMW ++ [Handler.normal hubsLogMW, Handler.normal (validateId M),
    Handler.normal getHubById] ++ postMW

/-- Flattened sequence for `POST /api/hubs` requests. -/
def postHubChain (M : HubsModel) : List Handler :=
  preMW ++ [Handler.normal hubsLogMW, Handler.normal requireBody,
    Handler.normal (postHub M)] ++ postMW

/-- Flattened sequence for `DELETE /api/hubs/:id` requests. -/
def deleteHubChain (M : HubsModel) : List Handler :=
  preMW ++ [Handler.normal hubsLogMW, Handler.normal (validateId M),
    Handler.normal (deleteHub M)] ++ postMW

/-- Flattened sequence for `PUT /api/hubs/:id` requests. -/
def putHubChain (M : HubsModel) : List Handler :=
  preMW ++ [Handler.normal hubsLogMW, Handler.normal (validateId M),
    Handler.normal requireBody, Handler.normal (putHub M)] ++ postMW

/-- Flattened sequence for `GET /api/hubs/:id/messages` requests. -/
def getHubMessagesChain (M : HubsModel) : List Handler :=
  preMW ++ [Handler.normal hubsLogMW, Handler.normal (validateId M),
    Handler.normal (getHubMessages M)] ++ postMW

/-- Flattened sequence for `POST /api/hubs/:id/messages` requests. -/
def postHubMessageChain (M : HubsModel) (Msgs : MessagesModel) : List Handler :=
  preMW ++ [Handler.normal hubsLogMW, Handler.normal (validateId M),
    Handler.normal requireBody, Handler.normal (postHubMessage Msgs)] ++ postMW

/-- In-memory hubs collaborator over a database state: every operation
succeeds; `findById` scans by identifier; `remove` reports how many records
carry the identifier.  Used to instantiate the handlers on concrete data. -/
def memHubs (db : List Hub) : HubsModel where
  find := fun _ => Except.ok db
  findById := fun i => Except.ok (db.find? (fun h => h.id == i))
  add := fun b => Except.ok ⟨"1", (lookupKey (b.getD []) "name").getD ""⟩
  update := fun i _ => Except.ok (db.find? (fun h => h.id == i))
  remove := fun i => Except.ok (db.countP (fun h => h.id == i))
  findHubMessages := fun _ => Except.ok []

/-- Database state after an in-memory `remove` of the given identifier. -/
def dbAfterRemove (db : List Hub) (i : String) : List Hub :=
  db.filter (fun h => !(h.id == i))

/-- In-memory messages collaborator: `add` stores and returns the record. -/
def memMessages : MessagesModel where
  add := fun m => Except.ok m

/-- Hubs collaborator whose every operation raises a collaborator error. -/
def failHubs : HubsModel where
  find := fun _ => Except.error (CollabErr.fault "io")
  findById := fun _ => Except.error (CollabErr.fault "io")
  add := fun _ => Except.error (CollabErr.fault "io")
  update := fun _ _ => Except.error (CollabErr.fault "io")
  remove := fun _ => Except.error (CollabErr.fault "io")
  findHubMessages := fun _ => Except.error (CollabErr.fault "io")

/-- Messages collaborator whose `add` raises a collaborator error. -/
def failMessages : MessagesModel where
  add := fun _ => Except.error (CollabErr.fault "io")

/-- Concrete request context for `/api/hubs/5`. -/
def ctx5 : Ctx :=
  { path := ["api", "hubs", "5"], id := "5", query := [], body := none,
    hub := none, name := none, seconds := 1 }

/-- Concrete one-hub database. -/
def db5 : List Hub := [⟨"5", "hub five"⟩]

/-- Pattern segment of a registered path pattern: literal text or a named
parameter (`:name`). -/
inductive Seg where
  | lit (s : String)
  | param (name : String)
  deriving DecidableEq, Repr

/-- Modelled from the spec: the Path Matcher (framework code absent from the
repository's sources).  Matching requires identical segment count and
position-for-position identical literal segments; a parameter segment
matches any single non-empty concrete segment and binds its name to the
segment text. -/
def matchSegs : List Seg → List String → Option Mapping
  | [], [] => some []
  | Seg.lit l :: ps, s :: ss =>
    if s == l then matchSegs ps ss else none
  | Seg.param n :: ps, s :: ss =>
    if s == "" then none else (matchSegs ps ss).map (fun m => (n, s) :: m)
  | _, _ => none

/-- Report of a programming-error condition in the dispatch engine. -/
inductive Violation where
  | doubleWrite (r : Response)
  deriving DecidableEq, Repr

/-- Modelled from the spec: the Response Sink — a status/body pair guarded
by a one-shot written flag.  A write attempt after the flag is set leaves
the stored response unchanged and reports a `DispatchInvariantViolation`
(double write). -/
structure Sink where
  response : Option Response
  reports : List Violation
  deriving DecidableEq, Repr

/-- Modelled from the spec: one write attempt against the sink. -/
def Sink.write (s : Sink) (r : Response) : Sink :=
  match s.response with
  | some _ => { s with reports := s.reports ++ [Violation.doubleWrite r] }
  | none => { s with response := some r }

/-- Sink before any write attempt. -/
def Sink.empty : Sink := ⟨none, []⟩

/-- Behaviour of one handler at sink level: the write attempts it performs,
and whether it ends by signalling advance. -/
structure RawHandler where
  writes : List Response
  advances : Bool

/-- Modelled from the spec: chain execution over the sink.  Before invoking
a handler the dispatcher consults the sink; once the response is written no
further handler executes.  Returns the final sink and how many handlers
ran. -/
def runChain : Sink → List RawHandler → Sink × Nat
  | s, [] => (s, 0)
  | s, h :: rest =>
    match s.response with
    | some _ => (s, 0)
    | none =>
      let s2 := h.writes.foldl Sink.write s
      if h.advances then
        let p := runChain s2 rest
        (p.1, p.2 + 1)
      else
        (s2, 1)

/-- Extract the status code of a dispatch result, when a response exists. -/
def DispatchResult.statusOf : DispatchResult → Option Nat
  | DispatchResult.response r => some r.status
  | DispatchResult.hang => none

lemma dispatch_err_refail (s : List Handler) (ctx : Ctx) (v : Failure)
    (h : ∀ scope f, Handler.errorCapable scope f ∈ s →
      scopeMatches scope ctx.path = false ∨ ∀ w c, f w c = (c, Outcome.fail w)) :
    dispatch s (Mode.err v) ctx = DispatchResult.response (fallback v) := by
  induction s with
  | nil => rfl
  | cons hd rest ih =>
    have hrest : dispatch rest (Mode.err v) ctx = DispatchResult.response (fallback v) :=
      ih (fun sc g hg => h sc g (List.mem_cons_of_mem _ hg))
    cases hd with
    | normal f =>
      simpa only [dispatch] using hrest
    | errorCapable scope f =>
      rcases h scope f (List.mem_cons_self _ _) with hsc | hf
      · simp only [dispatch, hsc, Bool.false_eq_true, if_false]
        exact hrest
      · by_cases hb : scopeMatches scope ctx.path = true
        · simp only [dispatch, hb, if_true, hf v ctx]
          exact hrest
        · simp only [dispatch, hb, if_false]
          exact hrest

/-- C1: if a handler signals fail and no eligible error handler in the
remaining flattened sequence consumes the failure (each ErrorCapable entry
is either out of scope for the request path or re-signals the failure value
unchanged), the built-in fallback writes the generic internal-failure (500)
response carrying the failure value — the request terminates in exactly one
response and never hangs. -/
theorem C1_fallback_guarantee (s : List Handler) (ctx : Ctx) (v : Failure)
    (h : ∀ scope f, Handler.errorCapable scope f ∈ s →
      scopeMatches scope ctx.path = false ∨ ∀ w c, f w c = (c, Outcome.fail w)) :
    dispatch s (Mode.err v) ctx = DispatchResult.response (fallback v) :=
  dispatch_err_refail s ctx v h

/-- C1 witness: the application's own error middleware re-signals, so a
failure above it reaches the fallback as a 500 carrying the value. -/
theorem C1_fallback_guarantee_witness :
    dispatch [Handler.normal gateKeeper, Handler.errorCapable [] errorMW]
        (Mode.err ⟨"boom"⟩) ctx5
      = DispatchResult.response (fallback ⟨"boom"⟩) :=
  C1_fallback_guarantee _ _ _ (by
    intro scope f hm
    cases hm with
    | tail _ hm2 =>
      cases hm2 with
      | head => exact Or.inr (fun w c => rfl)
      | tail _ hm3 => cases hm3)

/-- C2: `validateId` looks the resource up by the `:id` path parameter via
`findById`; on a found record it attaches the record to the request context
and advances, and the terminal `GET /:id` handler then responds 200 with
exactly that attached record; on an absent record or a lookup error it
fails with a descriptive value and writes no response itself. -/
theorem C2_validateId_get_by_id :
    (∀ (M : HubsModel) (ctx : Ctx) (h : Hub),
      M.findById ctx.id = Except.ok (some h) →
      validateId M ctx = ({ ctx with hub := some h }, Outcome.advance)) ∧
    (∀ (M : HubsModel) (ctx : Ctx) (h : Hub),
      M.findById ctx.id = Except.ok (some h) →
      dispatch (getHubByIdChain M) Mode.norm ctx
        = DispatchResult.response ⟨200, Body.hubOpt (some h)⟩) ∧
    (∀ (M : HubsModel) (ctx : Ctx),
      M.findById ctx.id = Except.ok none →
      validateId M ctx = (ctx, Outcome.fail ⟨"the id you sent was invalid"⟩)) ∧
    (∀ (M : HubsModel) (ctx : Ctx) (e : CollabErr),
      M.findById ctx.id = Except.error e →
      validateId M ctx = (ctx, Outcome.fail ⟨"some major jam..."⟩)) := by
  refine ⟨?_, ?_, ?_, ?_⟩
  · intro M ctx h hf
    simp only [validateId, hf]
  · intro M ctx h hf
    simp only [getHubByIdChain, preMW, postMW, List.cons_append, List.nil_append,
      dispatch, methodLogger, jsonParserMW, hubsLogMW, validateId, hf, getHubById]
  · intro M ctx hf
    simp only [validateId, hf]
  · intro M ctx e hf
    simp only [validateId, hf]

/-- C2 witness: on the one-hub database, `GET /api/hubs/5` attaches hub 5
and responds 200 with it; on the empty database the guard fails with the
invalid-id value; on the erroring collaborator it fails with the jam
value. -/
theorem C2_validateId_get_by_id_witness :
    validateId (memHubs db5) ctx5 = ({ ctx5 with hub := some ⟨"5", "hub five"⟩ }, Outcome.advance) ∧
    dispatch (getHubByIdChain (memHubs db5)) Mode.norm ctx5
      = DispatchResult.response ⟨200, Body.hubOpt (some ⟨"5", "hub five"⟩)⟩ ∧
    validateId (memHubs []) ctx5 = (ctx5, Outcome.fail ⟨"the id you sent was invalid"⟩) ∧
    validateId failHubs ctx5 = (ctx5, Outcome.fail ⟨"some major jam..."⟩) :=
  ⟨C2_validateId_get_by_id.1 (memHubs db5) ctx5 ⟨"5", "hub five"⟩ rfl,
   C2_validateId_get_by_id.2.1 (memHubs db5) ctx5 ⟨"5", "hub five"⟩ rfl,
   C2_validateId_get_by_id.2.2.1 (memHubs []) ctx5 rfl,
   C2_validateId_get_by_id.2.2.2 failHubs ctx5 (CollabErr.fault "io") rfl⟩

/-- C3: `requireBody` signals fail exactly when the decoded request body is
absent or an empty mapping, and signals advance otherwise; for `POST /hubs`
with an empty (or absent) body no registered error handler claims the
failure, and the fallback responds 500 with the guard's descriptive failure
value ("You need to supply a body with this request"). -/
theorem C3_requireBody_empty_body :
    (∀ (ctx : Ctx) (m : Mapping), ctx.body = some m →
      (requireBody ctx = (ctx, Outcome.advance) ↔ m ≠ [])) ∧
    (∀ ctx : Ctx,
      (requireBody ctx).2 = Outcome.fail ⟨"You need to supply a body with this request"⟩
        ↔ (ctx.body = none ∨ ctx.body = some [])) ∧
    (∀ (M : HubsModel) (ctx : Ctx), ctx.body = some [] →
      dispatch (postHubChain M) Mode.norm ctx
        = DispatchResult.response
            ⟨500, Body.err ⟨"You need to supply a body with this request"⟩⟩) ∧
    (∀ (M : HubsModel) (ctx : Ctx), ctx.body = none →
      dispatch (postHubChain M) Mode.norm ctx
        = DispatchResult.response
            ⟨500, Body.err ⟨"You need to supply a body with this request"⟩⟩) := by
  refine ⟨?_, ?_, ?_, ?_⟩
  · intro ctx m hb
    cases m with
    | nil => simp [requireBody, hb]
    | cons p l => simp [requireBody, hb]
  · intro ctx
    cases hb : ctx.body with
    | none => simp [requireBody, hb]
    | some m =>
      cases m with
      | nil => simp [requireBody, hb]
      | cons p l => simp [requireBody, hb]
  · intro M ctx hb
    simp only [postHubChain, preMW, postMW, List.cons_append, List.nil_append,
      dispatch, methodLogger, jsonParserMW, hubsLogMW, requireBody, hb,
      List.length_nil, gt_iff_lt, lt_self_iff_false, if_false, scopeMatches,
      errorMW, fallback, ite_self]
  · intro M ctx hb
    simp only [postHubChain, preMW, postMW, List.cons_append, List.nil_append,
      dispatch, methodLogger, jsonParserMW, hubsLogMW, requireBody, hb,
      scopeMatches, errorMW, fallback, ite_self]

/-- C3 witness: a nonempty body advances; the empty and absent bodies fail;
`POST /api/hubs` with the empty body ends in the 500 fallback carrying the
guard's value. -/
theorem C3_requireBody_empty_body_witness :
    requireBody { ctx5 with body := some [("name", "Acme")] }
      = ({ ctx5 with body := some [("name", "Acme")] }, Outcome.advance) ∧
    ((requireBody { ctx5 with body := some [] }).2
      = Outcome.fail ⟨"You need to supply a body with this request"⟩) ∧
    dispatch (postHubChain (memHubs db5)) Mode.norm { ctx5 with body := some [] }
      = DispatchResult.response
          ⟨500, Body.err ⟨"You need to supply a body with this request"⟩⟩ :=
  ⟨(C3_requireBody_empty_body.1 _ [("name", "Acme")] rfl).mpr (by decide),
   (C3_requireBody_empty_body.2.1 { ctx5 with body := some [] }).mpr (Or.inr rfl),
   C3_requireBody_empty_body.2.2.1 (memHubs db5) _ rfl⟩

/-- C4 counterexample: on the one-hub database, `DELETE /api/hubs/5`
responds 200; repeating the same request after the deletion responds 500
(the `validateId` guard fails and the failure falls through to the
fallback), not the 404 the claim asserts. -/
theorem C4_counterexample :
    dispatch (deleteHubChain (memHubs db5)) Mode.norm ctx5
      = DispatchResult.response ⟨200, Body.msg "The hub has been nuked"⟩ ∧
    dispatch (deleteHubChain (memHubs (dbAfterRemove db5 "5"))) Mode.norm ctx5
      = DispatchResult.response (fallback ⟨"the id you sent was invalid"⟩) ∧
    DispatchResult.statusOf
        (dispatch (deleteHubChain (memHubs (dbAfterRemove db5 "5"))) Mode.norm ctx5)
      = some 500 ∧
    ¬ DispatchResult.statusOf
        (dispatch (deleteHubChain (memHubs (dbAfterRemove db5 "5"))) Mode.norm ctx5)
      = some 404 := by
  exact ⟨rfl, rfl, rfl, by decide⟩

/-- C4 amended: `DELETE /:id` where the record exists passes `validateId`,
calls `remove`, and responds 200 on a positive count; the terminal's own
existence check is count-based (404 exactly when `remove` returns count 0
after the guard passed); but repeating the DELETE after the deletion
responds 500, not 404, because the route also carries the `validateId`
guard, whose failure falls through to the fallback — after an in-memory
removal the lookup finds nothing. -/
theorem C4_delete_amended :
    (∀ (M : HubsModel) (ctx : Ctx) (h : Hub) (n : Nat),
      M.findById ctx.id = Except.ok (some h) → M.remove ctx.id = Except.ok n → 0 < n →
      dispatch (deleteHubChain M) Mode.norm ctx
        = DispatchResult.response ⟨200, Body.msg "The hub has been nuked"⟩) ∧
    (∀ (M : HubsModel) (ctx : Ctx) (h : Hub),
      M.findById ctx.id = Except.ok (some h) → M.remove ctx.id = Except.ok 0 →
      dispatch (deleteHubChain M) Mode.norm ctx
        = DispatchResult.response ⟨404, Body.msg "The hub could not be found"⟩) ∧
    (∀ (M : HubsModel) (ctx : Ctx),
      M.findById ctx.id = Except.ok none →
      dispatch (deleteHubChain M) Mode.norm ctx
        = DispatchResult.response (fallback ⟨"the id you sent was invalid"⟩)) ∧
    (∀ (db : List Hub) (i : String),
      (memHubs (dbAfterRemove db i)).findById i = Except.ok none) := by
  refine ⟨?_, ?_, ?_, ?_⟩
  · intro M ctx h n hf hr hn
    simp only [deleteHubChain, preMW, postMW, List.cons_append, List.nil_append,
      dispatch, methodLogger, jsonParserMW, hubsLogMW, validateId, hf, deleteHub,
      hr, gt_iff_lt, hn, if_true]
  · intro M ctx h hf hr
    simp only [deleteHubChain, preMW, postMW, List.cons_append, List.nil_append,
      dispatch, methodLogger, jsonParserMW, hubsLogMW, validateId, hf, deleteHub,
      hr, gt_iff_lt, lt_self_iff_false, if_false]
  · intro M ctx hf
    simp only [deleteHubChain, preMW, postMW, List.cons_append, List.nil_append,
      dispatch, methodLogger, jsonParserMW, hubsLogMW, validateId, hf,
      scopeMatches, errorMW, fallback, ite_self]
  · intro db i
    have hnone : (db.filter (fun h => !(h.id == i))).find? (fun h => h.id == i) = none := by
      rw [List.find?_eq_none]
      intro x hx
      have h2 := (List.mem_filter.mp hx).2
      simpa using h2
    simp only [memHubs, dbAfterRemove, hnone]

/-- C4 amended witness: delete hub 5 from the one-hub database (200); a
collaborator that finds the hub but removes nothing yields 404; after the
removal the repeat request ends in the 500 fallback. -/
theorem C4_delete_amended_witness :
    dispatch (deleteHubChain (memHubs db5)) Mode.norm { ctx5 with seconds := 2 }
      = DispatchResult.response ⟨200, Body.msg "The hub has been nuked"⟩ ∧
    dispatch (deleteHubChain { memHubs db5 with remove := fun _ => Except.ok 0 }) Mode.norm
        { ctx5 with seconds := 2 }
      = DispatchResult.response ⟨404, Body.msg "The hub could not be found"⟩ ∧
    dispatch (deleteHubChain (memHubs (dbAfterRemove db5 "5"))) Mode.norm
        { ctx5 with seconds := 2 }
      = DispatchResult.response (fallback ⟨"the id you sent was invalid"⟩) :=
  ⟨C4_delete_amended.1 (memHubs db5) _ ⟨"5", "hub five"⟩ 1 rfl rfl (by decide),
   C4_delete_amended.2.1 { memHubs db5 with remove := fun _ => Except.ok 0 } _
     ⟨"5", "hub five"⟩ rfl rfl,
   C4_delete_amended.2.2.1 (memHubs (dbAfterRemove db5 "5")) _ rfl⟩

/-- C5 counterexample: when `Hubs.find` raises a collaborator error, the
`GET /` terminal handler does not convert it into a fail signal — it writes
a 500 response itself (and likewise `POST /` with `Hubs.add`). -/
theorem C5_counterexample :
    getHubsList failHubs ctx5
      = (ctx5, Outcome.write ⟨500, Body.msg "Error retrieving the hubs"⟩) ∧
    Outcome.isFail (getHubsList failHubs ctx5).2 = false ∧
    Outcome.isWrite (getHubsList failHubs ctx5).2 = true ∧
    postHub failHubs ctx5
      = (ctx5, Outcome.write ⟨500, Body.msg "Error adding the hub"⟩) ∧
    Outcome.isFail (postHub failHubs ctx5).2 = false := by
  exact ⟨rfl, rfl, rfl, rfl, rfl⟩

/-- C5 amended: whenever a persistence-collaborator operation invoked by a
terminal handler fails with a CollaboratorError, the terminal handler
catches it and itself writes a 500 response with a stable descriptive
message — it neither signals fail nor lets the error escape uncaught. -/
theorem C5_collab_error_amended :
    (∀ (M : HubsModel) (ctx : Ctx) (e : CollabErr), M.find ctx.query = Except.error e →
      getHubsList M ctx = (ctx, Outcome.write ⟨500, Body.msg "Error retrieving the hubs"⟩)) ∧
    (∀ (M : HubsModel) (ctx : Ctx) (e : CollabErr), M.add ctx.body = Except.error e →
      postHub M ctx = (ctx, Outcome.write ⟨500, Body.msg "Error adding the hub"⟩)) ∧
    (∀ (M : HubsModel) (ctx : Ctx) (e : CollabErr), M.remove ctx.id = Except.error e →
      deleteHub M ctx = (ctx, Outcome.write ⟨500, Body.msg "Error removing the hub"⟩)) ∧
    (∀ (M : HubsModel) (ctx : Ctx) (e : CollabErr),
      M.update ctx.id ctx.body = Except.error e →
      putHub M ctx = (ctx, Outcome.write ⟨500, Body.msg "Error updating the hub"⟩)) ∧
    (∀ (M : HubsModel) (ctx : Ctx) (e : CollabErr),
      M.findHubMessages ctx.id = Except.error e →
      getHubMessages M ctx
        = (ctx, Outcome.write ⟨500, Body.msg "Error getting the messages for the hub"⟩)) ∧
    (∀ (Msgs : MessagesModel) (ctx : Ctx) (e : CollabErr),
      Msgs.add (messageInfo ctx) = Except.error e →
      postHubMessage Msgs ctx
        = (ctx, Outcome.write ⟨500, Body.msg "Error getting the messages for the hub"⟩)) := by
  refine ⟨?_, ?_, ?_, ?_, ?_, ?_⟩
  · intro M ctx e he
    simp only [getHubsList, he]
  · intro M ctx e he
    simp only [postHub, he]
  · intro M ctx e he
    simp only [deleteHub, he]
  · intro M ctx e he
    simp only [putHub, he]
  · intro M ctx e he
    simp only [getHubMessages, he]
  · intro Msgs ctx e he
    simp only [postHubMessage, he]

/-- C5 amended witness: every terminal handler, run against the erroring
collaborators, writes its stable 500 response. -/
theorem C5_collab_error_amended_witness :
    getHubsList failHubs ctx5
      = (ctx5, Outcome.write ⟨500, Body.msg "Error retrieving the hubs"⟩) ∧
    postHub failHubs ctx5
      = (ctx5, Outcome.write ⟨500, Body.msg "Error adding the hub"⟩) ∧
    deleteHub failHubs ctx5
      = (ctx5, Outcome.write ⟨500, Body.msg "Error removing the hub"⟩) ∧
    putHub failHubs ctx5
      = (ctx5, Outcome.write ⟨500, Body.msg "Error updating the hub"⟩) ∧
    getHubMessages failHubs ctx5
      = (ctx5, Outcome.write ⟨500, Body.msg "Error getting the messages for the hub"⟩) ∧
    postHubMessage failMessages ctx5
      = (ctx5, Outcome.write ⟨500, Body.msg "Error getting the messages for the hub"⟩) :=
  ⟨C5_collab_error_amended.1 failHubs ctx5 (CollabErr.fault "io") rfl,
   C5_collab_error_amended.2.1 failHubs ctx5 (CollabErr.fault "io") rfl,
   C5_collab_error_amended.2.2.1 failHubs ctx5 (CollabErr.fault "io") rfl,
   C5_collab_error_amended.2.2.2.1 failHubs ctx5 (CollabErr.fault "io") rfl,
   C5_collab_error_amended.2.2.2.2.1 failHubs ctx5 (CollabErr.fault "io") rfl,
   C5_collab_error_amended.2.2.2.2.2 failMessages ctx5 (CollabErr.fault "io") rfl⟩

lemma foldl_write_written (rs : List Response) (s : Sink) (r : Response)
    (h : s.response = some r) :
    rs.foldl Sink.write s = ⟨some r, s.reports ++ rs.map Violation.doubleWrite⟩ := by
  induction rs generalizing s with
  | nil =>
    simp only [List.foldl_nil, List.map_nil, List.append_nil]
    cases s
    simp_all
  | cons a as ih =>
    have hw : Sink.write s a = ⟨some r, s.reports ++ [Violation.doubleWrite a]⟩ := by
      cases s
      simp only [Sink.write] at *
      simp_all
    simp only [List.foldl_cons, hw, ih ⟨some r, s.reports ++ [Violation.doubleWrite a]⟩ rfl,
      List.map_cons, List.append_assoc, List.singleton_append]

/-- C6: at most one response write is accepted per request — from the empty
sink, the first write attempt is stored and every later attempt is reported
as a double-write invariant violation, never silently accepted and never
replacing the stored response; and once the response exists, signalling
advance executes no further handler. -/
theorem C6_single_write :
    (∀ (s : Sink) (r : Response) (hs : List RawHandler),
      s.response = some r → runChain s hs = (s, 0)) ∧
    (∀ (s : Sink) (r r' : Response), s.response = some r →
      Sink.write s r' = ⟨some r, s.reports ++ [Violation.doubleWrite r']⟩) ∧
    (∀ (r : Response) (rs : List Response),
      (r :: rs).foldl Sink.write Sink.empty
        = ⟨some r, rs.map Violation.doubleWrite⟩) := by
  refine ⟨?_, ?_, ?_⟩
  · intro s r hs h
    cases hs with
    | nil => rfl
    | cons a as => simp only [runChain, h]
  · intro s r r' h
    cases s
    simp only [Sink.write] at *
    simp_all
  · intro r rs
    have h1 : Sink.write Sink.empty r = ⟨some r, []⟩ := rfl
    simp only [List.foldl_cons, h1]
    simpa using foldl_write_written rs ⟨some r, []⟩ r rfl

/-- C6 witness: a written sink runs no further handler; a second write on it
is reported; two concrete write attempts leave the first response stored and
one double-write report. -/
theorem C6_single_write_witness :
    runChain ⟨some ⟨200, Body.msg "done"⟩, []⟩ [⟨[⟨404, Body.msg "late"⟩], true⟩]
      = (⟨some ⟨200, Body.msg "done"⟩, []⟩, 0) ∧
    Sink.write ⟨some ⟨200, Body.msg "done"⟩, []⟩ ⟨404, Body.msg "late"⟩
      = ⟨some ⟨200, Body.msg "done"⟩, [Violation.doubleWrite ⟨404, Body.msg "late"⟩]⟩ ∧
    [(⟨200, Body.msg "done"⟩ : Response), ⟨404, Body.msg "late"⟩].foldl Sink.write Sink.empty
      = ⟨some ⟨200, Body.msg "done"⟩, [Violation.doubleWrite ⟨404, Body.msg "late"⟩]⟩ :=
  ⟨C6_single_write.1 _ ⟨200, Body.msg "done"⟩ _ rfl,
   C6_single_write.2.1 _ ⟨200, Body.msg "done"⟩ _ rfl,
   C6_single_write.2.2 ⟨200, Body.msg "done"⟩ [⟨404, Body.msg "late"⟩]⟩

/-- C7: the path matcher demands identical segment count, literal segments
must agree position for position, and a parameter segment matches any single
non-empty segment and binds its name; `/:id/messages` against
`/42/messages` yields `id = "42"`, and against `/42` (wrong segment count)
does not match. -/
theorem C7_path_matcher :
    matchSegs [Seg.param "id", Seg.lit "messages"] ["42", "messages"]
      = some [("id", "42")] ∧
    matchSegs [Seg.param "id", Seg.lit "messages"] ["42"] = none ∧
    (∀ (ps : List Seg) (ss : List String),
      (matchSegs ps ss).isSome = true → ps.length = ss.length) ∧
    (∀ (ps : List Seg) (ss : List String) (l s : String), ¬ s = l →
      matchSegs (Seg.lit l :: ps) (s :: ss) = none) ∧
    (∀ (ps : List Seg) (ss : List String) (n : String),
      matchSegs (Seg.param n :: ps) ("" :: ss) = none) ∧
    (∀ (ps : List Seg) (ss : List String) (n s : String), ¬ s = "" →
      matchSegs (Seg.param n :: ps) (s :: ss)
        = (matchSegs ps ss).map (fun m => (n, s) :: m)) := by
  refine ⟨rfl, rfl, ?_, ?_, ?_, ?_⟩
  · intro ps
    induction ps with
    | nil =>
      intro ss h
      cases ss with
      | nil => rfl
      | cons s ss => simp [matchSegs] at h
    | cons p ps ih =>
      intro ss h
      cases ss with
      | nil => cases p <;> simp [matchSegs] at h
      | cons s ss =>
        cases p with
        | lit l =>
          simp only [matchSegs] at h
          by_cases hb : (s == l) = true
          · rw [if_pos hb] at h
            simp only [List.length_cons, ih ss h]
          · rw [if_neg hb] at h
            simp at h
        | param n =>
          simp only [matchSegs] at h
          by_cases hb : (s == "") = true
          · rw [if_pos hb] at h
            simp at h
          · rw [if_neg hb] at h
            rw [Option.isSome_map'] at h
            simp only [List.length_cons, ih ss h]
  · intro ps ss l s hne
    have hb : (s == l) = false := by
      simpa using hne
    simp only [matchSegs, hb, Bool.false_eq_true, if_false]
  · intro ps ss n
    simp [matchSegs]
  · intro ps ss n s hne
    have hb : (s == "") = false := by
      simpa using hne
    simp only [matchSegs, hb, Bool.false_eq_true, if_false]

/-- C7 witness: the general conjuncts applied at concrete inputs — the match
of `/:id/messages` against `/42/messages` has equal segment counts; a
literal mismatch and an empty parameter segment both reject. -/
theorem C7_path_matcher_witness :
    ([Seg.param "id", Seg.lit "messages"].length = ["42", "messages"].length) ∧
    matchSegs [Seg.lit "messages"] ["mailboxes"] = none ∧
    matchSegs [Seg.param "id"] [""] = none ∧
    matchSegs [Seg.param "id"] ["42"]
      = (matchSegs [] []).map (fun m => ("id", "42") :: m) :=
  ⟨C7_path_matcher.2.2.1 [Seg.param "id", Seg.lit "messages"] ["42", "messages"] rfl,
   C7_path_matcher.2.2.2.1 [] [] "messages" "mailboxes" (by decide),
   C7_path_matcher.2.2.2.2.1 [] [] "id",
   C7_path_matcher.2.2.2.2.2 [] [] "id" "42" (by decide)⟩

/-- C8: the nested-create route `POST /:id/messages` succeeds with the
non-standard code 210, distinct from the ordinary create's 201; the code is
the route's own per-route value, and the response body is the stored message
record. -/
theorem C8_nested_create_code :
    postHubMessageSuccessCode = 210 ∧
    postHubSuccessCode = 201 ∧
    ¬ postHubMessageSuccessCode = postHubSuccessCode ∧
    (∀ (Msgs : MessagesModel) (ctx : Ctx) (m : Mapping),
      Msgs.add (messageInfo ctx) = Except.ok m →
      postHubMessage Msgs ctx
        = (ctx, Outcome.write ⟨postHubMessageSuccessCode, Body.messageRec m⟩)) := by
  refine ⟨rfl, rfl, by decide, ?_⟩
  intro Msgs ctx m hm
  simp only [postHubMessage, hm]

/-- C8 witness: the in-memory messages collaborator stores the record and
the route responds 210 with it. -/
theorem C8_nested_create_code_witness :
    postHubMessage memMessages { ctx5 with body := some [("text", "hi")] }
      = ({ ctx5 with body := some [("text", "hi")] },
        Outcome.write ⟨postHubMessageSuccessCode,
          Body.messageRec (messageInfo { ctx5 with body := some [("text", "hi")] })⟩) :=
  C8_nested_create_code.2.2.2 memMessages { ctx5 with body := some [("text", "hi")] }
    (messageInfo { ctx5 with body := some [("text", "hi")] }) rfl

/-- C9: the single registered error-handling middleware never writes a
response and re-signals every failure value unchanged; hence a fail signal
whose remaining sequence consists of normal handlers followed by this
middleware reaches the built-in fallback with the original failure value
intact and yields the generic 500 response. -/
theorem C9_error_mw_passthrough :
    (∀ (v : Failure) (c : Ctx), errorMW v c = (c, Outcome.fail v)) ∧
    (∀ (v : Failure) (c : Ctx), Outcome.isWrite (errorMW v c).2 = false) ∧
    (∀ v : Failure, fallback v = ⟨500, Body.err v⟩) ∧
    (∀ (s : List Handler) (ctx : Ctx) (v : Failure),
      (∀ h ∈ s, Handler.isNormal h = true) →
      dispatch (s ++ [Handler.errorCapable [] errorMW]) (Mode.err v) ctx
        = DispatchResult.response (fallback v)) := by
  refine ⟨fun v c => rfl, fun v c => rfl, fun v => rfl, ?_⟩
  intro s ctx v hnorm
  apply dispatch_err_refail
  intro scope f hmem
  rcases List.mem_append.mp hmem with hs | hone
  · have hn := hnorm _ hs
    simp [Handler.isNormal] at hn
  · have heq := List.mem_singleton.mp hone
    injection heq with h1 h2
    subst h1
    subst h2
    exact Or.inr (fun w c => rfl)

/-- C9 witness: a failure above two normal handlers and the error middleware
ends in the fallback with the same value. -/
theorem C9_error_mw_passthrough_witness :
    errorMW ⟨"oops"⟩ ctx5 = (ctx5, Outcome.fail ⟨"oops"⟩) ∧
    dispatch ([Handler.normal helmetMW, Handler.normal addName]
        ++ [Handler.errorCapable [] errorMW]) (Mode.err ⟨"oops"⟩) ctx5
      = DispatchResult.response (fallback ⟨"oops"⟩) :=
  ⟨C9_error_mw_passthrough.1 ⟨"oops"⟩ ctx5,
   C9_error_mw_passthrough.2.2.2 [Handler.normal helmetMW, Handler.normal addName] ctx5
     ⟨"oops"⟩ (by
      intro h hm
      cases hm with
      | head => rfl
      | tail _ hm2 =>
        cases hm2 with
        | head => rfl
        | tail _ hm3 => cases hm3)⟩

lemma find?_map_overwrite (m : Mapping) (k v : String)
    (hm : m.any (fun p => p.1 == k) = true) :
    (m.map (fun p => if p.1 == k then (k, v) else p)).find? (fun p => p.1 == k)
      = some (k, v) := by
  induction m with
  | nil => simp at hm
  | cons a as ih =>
    rw [List.map_cons]
    by_cases ha : (a.1 == k) = true
    · rw [if_pos ha]
      exact List.find?_cons_of_pos _ (by simp)
    · rw [if_neg ha]
      rw [List.find?_cons_of_neg _ (by simpa using ha)]
      apply ih
      rw [Bool.not_eq_true] at ha
      simpa [List.any_cons, ha] using hm

lemma lookupKey_setKey (m : Mapping) (k v : String) :
    lookupKey (setKey m k v) k = some v := by
  unfold setKey
  by_cases hb : m.any (fun p => p.1 == k) = true
  · rw [if_pos hb]
    unfold lookupKey
    rw [find?_map_overwrite m k v hb]
    rfl
  · rw [if_neg hb]
    have hnone : m.find? (fun p => p.1 == k) = none := by
      rw [List.find?_eq_none]
      intro x hx hpx
      exact hb (List.any_eq_true.mpr ⟨x, hx, hpx⟩)
    simp [lookupKey, List.find?_append, hnone]

/-- C10: the record `POST /:id/messages` passes to `Messages.add` carries
`hub_id` equal to the request's `:id` path parameter; a `hub_id` field
supplied in the request body is always overwritten by the path value. -/
theorem C10_hub_id_overwrite :
    (∀ ctx : Ctx, lookupKey (messageInfo ctx) "hub_id" = some ctx.id) ∧
    (∀ (b : Mapping) (i old : String),
      lookupKey (setKey (("hub_id", old) :: b) "hub_id" i) "hub_id" = some i) := by
  refine ⟨?_, ?_⟩
  · intro ctx
    exact lookupKey_setKey (ctx.body.getD []) "hub_id" ctx.id
  · intro b i old
    exact lookupKey_setKey (("hub_id", old) :: b) "hub_id" i

end HubsApp
